import Mathlib

/-!
Verification of the technical-signal derivation pipeline of `btc_dashboard.py`.

The classifier (source lines 141-185 of `src/btc_dashboard.py`) reads the last
row of the indicator frame and the last close, derives four status values and a
list of advice strings.  Indicator values reaching the classifier are IEEE
floats: a value can be an ordinary number, NaN (the pandas marker for "not enough
history"), or an infinity (produced by the Bollinger-percent division when the
bands collapse).  We embed this value space as `PVal` with IEEE comparison,
addition, subtraction and division semantics on the cases the classifier
exercises; ordinary numbers are exact rationals.
-/

/-- A Python/NumPy float value as the classifier sees it: an exact number,
NaN, or a signed infinity. -/
inductive PVal where
  | num (q : ℚ)
  | nan
  | inf
  | neginf
deriving DecidableEq

namespace PVal

/-- IEEE `<` on float values: any comparison involving NaN is false. -/
def plt : PVal → PVal → Bool
  | num a, num b => decide (a < b)
  | num _, inf => true
  | neginf, num _ => true
  | neginf, inf => true
  | _, _ => false

/-- IEEE `>` on float values: `x > y` is `y < x`. -/
def pgt (x y : PVal) : Bool := plt y x

/-- IEEE negation. -/
def pneg : PVal → PVal
  | num a => num (-a)
  | nan => nan
  | inf => neginf
  | neginf => inf

/-- IEEE addition restricted to the cases the classifier exercises. -/
def padd : PVal → PVal → PVal
  | num a, num b => num (a + b)
  | nan, _ => nan
  | _, nan => nan
  | inf, neginf => nan
  | neginf, inf => nan
  | inf, _ => inf
  | _, inf => inf
  | neginf, _ => neginf
  | _, neginf => neginf

/-- IEEE subtraction. -/
def psub (x y : PVal) : PVal := padd x (pneg y)

/-- IEEE division restricted to the cases the classifier exercises: a zero
denominator yields NaN (0/0) or a signed infinity, never an exception —
this is exactly how the NumPy floats of the source behave. -/
def pdiv : PVal → PVal → PVal
  | nan, _ => nan
  | _, nan => nan
  | num a, num b =>
      if b = 0 then (if a = 0 then nan else if 0 < a then inf else neginf)
      else num (a / b)
  | num _, inf => num 0
  | num _, neginf => num 0
  | inf, num b => if b < 0 then neginf else inf
  | neginf, num b => if b < 0 then inf else neginf
  | inf, _ => nan
  | neginf, _ => nan

end PVal

open PVal

/-- The latest indicator row as the classifier reads it
(`data[...].iloc[-1]` at source lines 142-159): six indicator floats, each
possibly NaN, plus the latest close, which is always a real number (a missing
close is a malformed series). -/
structure IndicatorRow where
  rsi : PVal
  macd : PVal
  macdSignal : PVal
  sma20 : PVal
  bbLower : PVal
  bbUpper : PVal
  close : ℚ
deriving DecidableEq

/-- RSI status, source line 143. -/
inductive RsiStatus where
  | overbought
  | oversold
  | neutral
deriving DecidableEq

/-- MACD status, source line 149. -/
inductive MacdStatus where
  | bullish
  | bearish
deriving DecidableEq

/-- Bollinger status, source line 155. -/
inductive BollStatus where
  | highVolatility
  | lowVolatility
  | normal
deriving DecidableEq

/-- Trend status, source line 159. -/
inductive TrendStatus where
  | bullish
  | bearish
deriving DecidableEq

/-- Source line 143: overbought when `rsi > 70`, oversold when `rsi < 30`,
else neutral. -/
def rsiStatusOf (r : IndicatorRow) : RsiStatus :=
  if pgt r.rsi (.num 70) then .overbought
  else if plt r.rsi (.num 30) then .oversold
  else .neutral

/-- Source line 149: bullish when `macd > signal`, else bearish. -/
def macdStatusOf (r : IndicatorRow) : MacdStatus :=
  if pgt r.macd r.macdSignal then .bullish else .bearish

/-- Source lines 153-154: `(close - bbLower) / (bbUpper - bbLower)`. -/
def bollPercentOf (r : IndicatorRow) : PVal :=
  pdiv (psub (.num r.close) r.bbLower) (psub r.bbUpper r.bbLower)

/-- Source line 155: high volatility when `bb_percent > 0.8`, low when
`bb_percent < 0.2`, else normal. -/
def bollStatusOf (r : IndicatorRow) : BollStatus :=
  if pgt (bollPercentOf r) (.num (8/10)) then .highVolatility
  else if plt (bollPercentOf r) (.num (2/10)) then .lowVolatility
  else .normal

/-- Source line 159: bullish when `close > sma20`, else bearish. -/
def trendOf (r : IndicatorRow) : TrendStatus :=
  if pgt (.num r.close) r.sma20 then .bullish else .bearish

/-- Advice strings of source lines 167-182. -/
def rsiOverboughtLine : String :=
  "Consider taking profits - RSI indicates overbought condition"

def rsiOversoldLine : String :=
  "Potential buying opportunity - RSI indicates oversold condition"

def macdBullLine : String :=
  "Strong bullish momentum - MACD above signal line"

def macdBearLine : String :=
  "Bearish momentum building - MACD below signal line"

def bbUpperLine : String :=
  "Price above upper Bollinger Band - possible mean reversion"

def bbLowerLine : String :=
  "Price below lower Bollinger Band - potential bounce opportunity"

def fallbackLine : String :=
  "No strong signals detected - maintain current positions"

/-- Source lines 166-169: the RSI advice rule. -/
def rsiAdviceOf (r : IndicatorRow) : List String :=
  if pgt r.rsi (.num 70) then [rsiOverboughtLine]
  else if plt r.rsi (.num 30) then [rsiOversoldLine]
  else []

/-- Source lines 171-174: the MACD margin advice rule, thresholds at
`signal ± 1.0`. -/
def macdAdviceOf (r : IndicatorRow) : List String :=
  if pgt r.macd (padd r.macdSignal (.num 1)) then [macdBullLine]
  else if plt r.macd (psub r.macdSignal (.num 1)) then [macdBearLine]
  else []

/-- Source lines 176-179: the Bollinger breach advice rule. -/
def bollAdviceOf (r : IndicatorRow) : List String :=
  if pgt (.num r.close) r.bbUpper then [bbUpperLine]
  else if plt (.num r.close) r.bbLower then [bbLowerLine]
  else []

/-- The advice gathered by the three rules, in source evaluation order
(lines 164-179): RSI, then MACD, then Bollinger. -/
def ruleAdviceOf (r : IndicatorRow) : List String :=
  rsiAdviceOf r ++ macdAdviceOf r ++ bollAdviceOf r

/-- Source lines 181-182: if no rule fired, the single fallback line. -/
def adviceOf (r : IndicatorRow) : List String :=
  if ruleAdviceOf r = [] then [fallbackLine] else ruleAdviceOf r

/-- The four statuses of the "Technical Signals" section, source
lines 141-160. -/
structure SignalSnapshot where
  rsiStatus : RsiStatus
  macdStatus : MacdStatus
  bollingerStatus : BollStatus
  trendDirection : TrendStatus
deriving DecidableEq

/-- The whole classifier: statuses plus the advice list. -/
def classify (r : IndicatorRow) : SignalSnapshot × List String :=
  (⟨rsiStatusOf r, macdStatusOf r, bollStatusOf r, trendOf r⟩, adviceOf r)

/-!
## Indicator engine

The indicator mathematics of `calculate_technicals` (source lines 73-78) lives
in the third-party `pandas_ta` library, whose code is not part of this
repository.  The definitions below are therefore modelled from the spec:
SMA(20), Wilder RSI(14), MACD(12,26,9) with SMA-seeded EMAs, and Bollinger
Bands(20, 2 sigma) over the close series, each value `Option ℚ` with `none`
for "undefined" (the NaN of the real frame) — never a silent zero.
Bar indices are 0-based: SMA20 and the bands are defined from index 19, RSI
from index 14, MACD from index 25, its signal from index 33.
-/

/-- Modelled from the spec: one row of the `IndicatorFrame`; `none` is the
explicit "undefined" marker for bars before the lookback window. -/
structure IndRow where
  rsi14 : Option ℚ
  macd : Option ℚ
  macdSignal : Option ℚ
  sma20 : Option ℚ
  bbLower : Option ℚ
  bbUpper : Option ℚ
deriving DecidableEq

/-- Modelled from the spec: the trailing `n`-bar window of closes ending at
bar `i` (inclusive). -/
def window (closes : List ℚ) (n i : ℕ) : List ℚ :=
  (closes.drop (i + 1 - n)).take n

/-- Modelled from the spec: SMA(20) — arithmetic mean of the trailing 20
closes, undefined for the first 19 bars. -/
def sma20At (closes : List ℚ) (i : ℕ) : Option ℚ :=
  if 19 ≤ i then some ((window closes 20 i).sum / 20) else none

/-- Modelled from the spec: close-to-close deltas. -/
def deltas (closes : List ℚ) : List ℚ :=
  (closes.drop 1).zipWith (fun a b => a - b) closes

/-- Modelled from the spec: the gain part of each delta. -/
def gains (closes : List ℚ) : List ℚ :=
  (deltas closes).map (fun d => max d 0)

/-- Modelled from the spec: the loss part of each delta. -/
def losses (closes : List ℚ) : List ℚ :=
  (deltas closes).map (fun d => max (-d) 0)

/-- Modelled from the spec: Wilder smoothing with period 14 over a delta
series; step `k` is the smoothed average at delta index `13 + k`, seeded by
the plain mean of the first 14 entries. -/
def wilder14 (xs : List ℚ) : ℕ → ℚ
  | 0 => (xs.take 14).sum / 14
  | k + 1 => (wilder14 xs k * 13 + xs.getD (14 + k) 0) / 14

/-- Modelled from the spec: RSI(14), undefined for the first 14 bars;
`RSI = 100 - 100/(1+RS)` with `RS = avgGain/avgLoss`, and 100 when
`avgLoss = 0` (the zero-avgLoss branch fires first). -/
def rsiAt (closes : List ℚ) (i : ℕ) : Option ℚ :=
  if 14 ≤ i then
    some
      (if wilder14 (losses closes) (i - 14) = 0 then 100
       else 100 - 100 /
         (1 + wilder14 (gains closes) (i - 14) / wilder14 (losses closes) (i - 14)))
  else none

/-- Modelled from the spec: EMA with period `n`, seeded by the SMA of the
first `n` entries (step 0 = bar `n-1`), multiplier `2/(n+1)`. -/
def emaFrom (n : ℕ) (xs : List ℚ) : ℕ → ℚ
  | 0 => (xs.take n).sum / n
  | k + 1 =>
      (xs.getD (n + k) 0 - emaFrom n xs k) * (2 / (n + 1)) + emaFrom n xs k

/-- Modelled from the spec: the MACD value `EMA12 - EMA26` at bar `i ≥ 25`. -/
def macdVal (closes : List ℚ) (i : ℕ) : ℚ :=
  emaFrom 12 closes (i - 11) - emaFrom 26 closes (i - 25)

/-- Modelled from the spec: the MACD column, undefined until bar 25. -/
def macdAt (closes : List ℚ) (i : ℕ) : Option ℚ :=
  if 25 ≤ i then some (macdVal closes i) else none

/-- Modelled from the spec: the defined part of the MACD column as a series
(starting at bar 25), the input of the signal EMA. -/
def macdSeries (closes : List ℚ) : List ℚ :=
  (List.range (closes.length - 25)).map (fun k => macdVal closes (25 + k))

/-- Modelled from the spec: the MACD signal line `EMA9(MACD)`, undefined
until bar 33. -/
def macdSignalAt (closes : List ℚ) (i : ℕ) : Option ℚ :=
  if 33 ≤ i then some (emaFrom 9 (macdSeries closes) (i - 33)) else none

/-- Modelled from the spec: the square root used for the Bollinger standard
deviation, kept inside ℚ; it is exact on 0 and on squares of rationals, and
every place a theorem below evaluates it has variance 0. -/
def ratSqrt (q : ℚ) : ℚ :=
  (Nat.sqrt q.num.toNat : ℚ) / (Nat.sqrt q.den : ℚ)

/-- Modelled from the spec: Bollinger Bands(20, 2) — `mid = SMA20`, population
standard deviation of the trailing 20 closes, `(lower, upper) = mid ∓ 2·sd`;
undefined for the first 19 bars. -/
def bbAt (closes : List ℚ) (i : ℕ) : Option (ℚ × ℚ) :=
  if 19 ≤ i then
    some
      (let w := window closes 20 i
       let mid := w.sum / 20
       let sd := ratSqrt ((w.map (fun x => (x - mid) ^ 2)).sum / 20)
       (mid - 2 * sd, mid + 2 * sd))
  else none

/-- Modelled from the spec: `computeIndicators` — the indicator frame, one
row per input bar, index-aligned with the close series. -/
def computeIndicators (closes : List ℚ) : List IndRow :=
  (List.range closes.length).map (fun i =>
    { rsi14 := rsiAt closes i
      macd := macdAt closes i
      macdSignal := macdSignalAt closes i
      sma20 := sma20At closes i
      bbLower := (bbAt closes i).map Prod.fst
      bbUpper := (bbAt closes i).map Prod.snd })

/-- An undefined-everywhere indicator row (the default of `getD`). -/
def emptyIndRow : IndRow :=
  ⟨none, none, none, none, none, none⟩

/-- Conversion from an engine value to a classifier float: an undefined
entry becomes NaN, exactly how pandas hands a missing value to the
comparisons of the source. -/
def toPVal : Option ℚ → PVal
  | none => PVal.nan
  | some q => PVal.num q

/-- The last frame row plus the last close, as the classifier reads them
with `.iloc[-1]` (source lines 142-159). -/
def latestRow (closes : List ℚ) : IndicatorRow :=
  let fr := computeIndicators closes
  let last := fr.getD (closes.length - 1) emptyIndRow
  { rsi := toPVal last.rsi14
    macd := toPVal last.macd
    macdSignal := toPVal last.macdSignal
    sma20 := toPVal last.sma20
    bbLower := toPVal last.bbLower
    bbUpper := toPVal last.bbUpper
    close := closes.getD (closes.length - 1) 0 }

/-- The flat 30-bar scenario series: every close 50000. -/
def flat30 : List ℚ := List.replicate 30 50000

/-- A concrete 10-bar series, one close per bar, rising 100 to 109. -/
def closes10 : List ℚ := [100, 101, 102, 103, 104, 105, 106, 107, 108, 109]


/-!
## Helper lemmas
-/

/-- Nothing compares below NaN. -/
theorem plt_nan_right (x : PVal) : plt x PVal.nan = false := by
  cases x <;> rfl

/-- NaN compares below nothing. -/
theorem plt_nan_left (x : PVal) : plt PVal.nan x = false := by
  cases x <;> rfl

/-- The RSI rule emits nothing or a single known line. -/
theorem rsiAdvice_cases (r : IndicatorRow) :
    rsiAdviceOf r = [] ∨ rsiAdviceOf r = [rsiOverboughtLine] ∨
      rsiAdviceOf r = [rsiOversoldLine] := by
  unfold rsiAdviceOf; split_ifs <;> simp

/-- The MACD rule emits nothing or a single known line. -/
theorem macdAdvice_cases (r : IndicatorRow) :
    macdAdviceOf r = [] ∨ macdAdviceOf r = [macdBullLine] ∨
      macdAdviceOf r = [macdBearLine] := by
  unfold macdAdviceOf; split_ifs <;> simp

/-- The Bollinger rule emits nothing or a single known line. -/
theorem bollAdvice_cases (r : IndicatorRow) :
    bollAdviceOf r = [] ∨ bollAdviceOf r = [bbUpperLine] ∨
      bollAdviceOf r = [bbLowerLine] := by
  unfold bollAdviceOf; split_ifs <;> simp

/-- The fallback line is not one of the six rule lines. -/
theorem fallback_not_mem_rule (r : IndicatorRow) :
    fallbackLine ∉ ruleAdviceOf r := by
  unfold ruleAdviceOf
  rcases rsiAdvice_cases r with h1 | h1 | h1 <;>
    rcases macdAdvice_cases r with h2 | h2 | h2 <;>
      rcases bollAdvice_cases r with h3 | h3 | h3 <;>
        rw [h1, h2, h3] <;> decide

/-- An undefined (NaN) MACD value silences the margin rule and drops the
status to the bearish else-branch. -/
theorem macd_nan_no_advice (r : IndicatorRow) (h : r.macd = PVal.nan) :
    macdAdviceOf r = [] ∧ macdStatusOf r = MacdStatus.bearish := by
  constructor
  · simp [macdAdviceOf, h, pgt, plt_nan_right, plt_nan_left]
  · simp [macdStatusOf, h, pgt, plt_nan_right]

/-- The frame has one row per bar. -/
theorem frame_length (closes : List ℚ) :
    (computeIndicators closes).length = closes.length := by
  simp [computeIndicators]

/-- Reading row `i` of the frame with a default. -/
theorem frame_getD (closes : List ℚ) (i : ℕ) :
    (computeIndicators closes).getD i emptyIndRow =
      if i < closes.length then
        { rsi14 := rsiAt closes i
          macd := macdAt closes i
          macdSignal := macdSignalAt closes i
          sma20 := sma20At closes i
          bbLower := (bbAt closes i).map Prod.fst
          bbUpper := (bbAt closes i).map Prod.snd }
      else emptyIndRow := by
  unfold computeIndicators
  by_cases h : i < closes.length
  · rw [if_pos h, List.getD_eq_getElem?_getD, List.getElem?_map,
      List.getElem?_range (by simpa using h)]
    rfl
  · rw [if_neg h, List.getD_eq_getElem?_getD, List.getElem?_eq_none (by simp; omega)]
    rfl

/-- A string disequality the MACD case analysis needs. -/
theorem bull_ne_bear : macdBullLine ≠ macdBearLine := by decide

/-- A latest row with collapsed Bollinger bands equal to the close and the
other indicators undefined — what a flat trailing window produces. -/
def collapseRow : IndicatorRow :=
  { rsi := PVal.nan, macd := PVal.nan, macdSignal := PVal.nan,
    sma20 := PVal.num 50000, bbLower := PVal.num 50000,
    bbUpper := PVal.num 50000, close := 50000 }

/-- A latest row firing all three advice rules at once. -/
def fireAllRow : IndicatorRow :=
  { rsi := PVal.num 80, macd := PVal.num 5, macdSignal := PVal.num 0,
    sma20 := PVal.num 100, bbLower := PVal.num 90, bbUpper := PVal.num 100,
    close := 110 }

/-- A latest row with a defined MACD pair. -/
def macdRowW : IndicatorRow :=
  { rsi := PVal.nan, macd := PVal.num 5, macdSignal := PVal.num 0,
    sma20 := PVal.nan, bbLower := PVal.nan, bbUpper := PVal.nan, close := 0 }

/-- C1 (amended): on a row whose Bollinger bands collapse onto the close,
the classifier divides zero by zero, which yields NaN rather than raising;
the Bollinger status is then computed as Normal — it is not skipped — and no
Bollinger advice line is produced. -/
theorem bollinger_collapse_skip (r : IndicatorRow) (b : ℚ)
    (hl : r.bbLower = PVal.num b) (hu : r.bbUpper = PVal.num b)
    (hc : r.close = b) :
    bollPercentOf r = PVal.nan ∧ bollStatusOf r = BollStatus.normal ∧
      bollAdviceOf r = [] := by
  have hz : psub (PVal.num b) (PVal.num b) = PVal.num 0 := by
    simp [psub, padd, pneg]
  have hperc : bollPercentOf r = PVal.nan := by
    unfold bollPercentOf
    rw [hl, hu, hc, hz]
    rfl
  refine ⟨hperc, ?_, ?_⟩
  · unfold bollStatusOf
    rw [hperc]
    simp [pgt, plt_nan_right, plt_nan_left]
  · unfold bollAdviceOf
    rw [hu, hl, hc]
    simp [pgt, plt, lt_irrefl]

unseal Rat.add Rat.mul Rat.sub Rat.inv in
/-- C1 witness: the collapsed row evaluated concretely. -/
theorem bollinger_collapse_skip_witness :
    bollPercentOf collapseRow = PVal.nan ∧
      bollStatusOf collapseRow = BollStatus.normal ∧
        bollAdviceOf collapseRow = [] :=
  bollinger_collapse_skip collapseRow 50000 rfl rfl rfl

unseal Rat.add Rat.mul Rat.sub Rat.inv in
/-- C1 counterexample: with `bbUpper = bbLower` the classifier still
produces a Bollinger status (Normal), after evaluating the zero-volatility
division to NaN — the rule is not skipped as the claim states. -/
theorem bollinger_collapse_counterexample :
    bollStatusOf collapseRow = BollStatus.normal ∧
      bollPercentOf collapseRow = PVal.nan := by
  decide

/-- C3: when the RSI, MACD-margin and Bollinger-breach rules all fire, the
advice list is exactly the RSI line, then the MACD line, then the Bollinger
line — one line each, in rule-evaluation order. -/
theorem advice_order_fixed (r : IndicatorRow) (h1 : rsiAdviceOf r ≠ [])
    (h2 : macdAdviceOf r ≠ []) (h3 : bollAdviceOf r ≠ []) :
    adviceOf r = rsiAdviceOf r ++ macdAdviceOf r ++ bollAdviceOf r ∧
      (rsiAdviceOf r).length = 1 ∧ (macdAdviceOf r).length = 1 ∧
        (bollAdviceOf r).length = 1 := by
  rcases rsiAdvice_cases r with h | h | h <;>
    rcases macdAdvice_cases r with g | g | g <;>
      rcases bollAdvice_cases r with k | k | k <;>
        simp_all [adviceOf, ruleAdviceOf]

unseal Rat.add Rat.mul Rat.sub Rat.inv in
/-- C3 witness: a row firing all three rules, evaluated concretely. -/
theorem advice_order_fixed_witness :
    adviceOf fireAllRow =
        rsiAdviceOf fireAllRow ++ macdAdviceOf fireAllRow ++
          bollAdviceOf fireAllRow ∧
      (rsiAdviceOf fireAllRow).length = 1 ∧
        (macdAdviceOf fireAllRow).length = 1 ∧
          (bollAdviceOf fireAllRow).length = 1 :=
  advice_order_fixed fireAllRow (by decide) (by decide) (by decide)

/-- C4: with both MACD values defined, the status is Bullish exactly when
`macd > macdSignal` (else Bearish), while advice needs a margin beyond 1.0
on either side; inside the closed margin band no MACD advice is emitted. -/
theorem macd_status_and_margin (r : IndicatorRow) (m s : ℚ)
    (hm : r.macd = PVal.num m) (hs : r.macdSignal = PVal.num s) :
    (macdStatusOf r = MacdStatus.bullish ↔ s < m) ∧
      (macdStatusOf r = MacdStatus.bearish ↔ m ≤ s) ∧
        (macdAdviceOf r = [macdBullLine] ↔ s + 1 < m) ∧
          (macdAdviceOf r = [macdBearLine] ↔ m < s - 1) ∧
            (macdAdviceOf r = [] ↔ s - 1 ≤ m ∧ m ≤ s + 1) := by
  have hadd : padd (PVal.num s) (PVal.num 1) = PVal.num (s + 1) := rfl
  have hsub : psub (PVal.num s) (PVal.num 1) = PVal.num (s - 1) := by
    simp [psub, padd, pneg, sub_eq_add_neg]
  unfold macdStatusOf macdAdviceOf
  rw [hm, hs, hadd, hsub]
  simp only [pgt, plt, decide_eq_true_eq]
  split_ifs with h1 h2 h3 <;>
    refine ⟨?_, ?_, ?_, ?_, ?_⟩ <;>
      simp_all [bull_ne_bear, Ne.symm bull_ne_bear] <;>
        try (first | (constructor <;> linarith) | linarith)

unseal Rat.add Rat.mul Rat.sub Rat.inv in
/-- C4 witness: the MACD pair (5, 0), evaluated concretely. -/
theorem macd_status_and_margin_witness :
    (macdStatusOf macdRowW = MacdStatus.bullish ↔ (0 : ℚ) < 5) ∧
      (macdStatusOf macdRowW = MacdStatus.bearish ↔ (5 : ℚ) ≤ 0) ∧
        (macdAdviceOf macdRowW = [macdBullLine] ↔ (0 : ℚ) + 1 < 5) ∧
          (macdAdviceOf macdRowW = [macdBearLine] ↔ (5 : ℚ) < 0 - 1) ∧
            (macdAdviceOf macdRowW = [] ↔ (0 : ℚ) - 1 ≤ 5 ∧ (5 : ℚ) ≤ 0 + 1) :=
  macd_status_and_margin macdRowW 5 0 rfl rfl

/-- C6: the advice list carries the fallback line exactly once when no rule
fired and never otherwise; when a rule fired the list is exactly the rule
lines. -/
theorem fallback_exactly_when_no_rule (r : IndicatorRow) :
    ((adviceOf r).count fallbackLine =
        if ruleAdviceOf r = [] then 1 else 0) ∧
      (adviceOf r = ruleAdviceOf r ∨
        (ruleAdviceOf r = [] ∧ adviceOf r = [fallbackLine])) := by
  by_cases h : ruleAdviceOf r = []
  · simp [adviceOf, h]
  · refine ⟨?_, Or.inl (by simp [adviceOf, h])⟩
    rw [if_neg h]
    have hmem := fallback_not_mem_rule r
    simp [adviceOf, h, List.count_eq_zero.mpr hmem]

/-- C7 is settled further below, after the engine lemmas. C8: the classifier
is a pure function — two runs on equal latest rows give equal snapshots and
equal advice lists, in the same order. -/
theorem classify_deterministic (r₁ r₂ : IndicatorRow) (h : r₁ = r₂) :
    classify r₁ = classify r₂ := by rw [h]

/-- C8 witness: determinism instantiated at a concrete row. -/
theorem classify_deterministic_witness :
    classify collapseRow = classify collapseRow :=
  classify_deterministic collapseRow collapseRow rfl

/-- C9: an undefined (NaN) RSI makes both threshold comparisons false, so
the status is Neutral — never Overbought or Oversold — and neither RSI
advice line appears in the advice list. -/
theorem rsi_undefined_neutral (r : IndicatorRow) (h : r.rsi = PVal.nan) :
    rsiStatusOf r = RsiStatus.neutral ∧ rsiAdviceOf r = [] ∧
      rsiOverboughtLine ∉ adviceOf r ∧ rsiOversoldLine ∉ adviceOf r := by
  have ha : rsiAdviceOf r = [] := by
    simp [rsiAdviceOf, h, pgt, plt_nan_right, plt_nan_left]
  refine ⟨?_, ha, ?_, ?_⟩
  · simp [rsiStatusOf, h, pgt, plt_nan_right, plt_nan_left]
  all_goals
    rcases macdAdvice_cases r with h2 | h2 | h2 <;>
      rcases bollAdvice_cases r with h3 | h3 | h3 <;>
        simp [adviceOf, ruleAdviceOf, ha, h2, h3] <;> decide

/-- C9 witness: a row with NaN RSI, evaluated concretely. -/
theorem rsi_undefined_neutral_witness :
    rsiStatusOf collapseRow = RsiStatus.neutral ∧
      rsiAdviceOf collapseRow = [] ∧
        rsiOverboughtLine ∉ adviceOf collapseRow ∧
          rsiOversoldLine ∉ adviceOf collapseRow :=
  rsi_undefined_neutral collapseRow rfl

/-- C10: each rule contributes at most one line and the fallback fills the
empty case, so the advice list always has between 1 and 3 entries. -/
theorem advice_length_bounds (r : IndicatorRow) :
    1 ≤ (adviceOf r).length ∧ (adviceOf r).length ≤ 3 ∧
      (rsiAdviceOf r).length ≤ 1 ∧ (macdAdviceOf r).length ≤ 1 ∧
        (bollAdviceOf r).length ≤ 1 := by
  rcases rsiAdvice_cases r with h1 | h1 | h1 <;>
    rcases macdAdvice_cases r with h2 | h2 | h2 <;>
      rcases bollAdvice_cases r with h3 | h3 | h3 <;>
        simp [adviceOf, ruleAdviceOf, h1, h2, h3]

/-- C2 (amended): when the series is shorter than the MACD lookback, both
MACD columns are undefined in every frame row, the engine returns (it never
raises — it is a total function), the classifier emits no MACD advice, and
the MACD status falls to the Bearish else-branch of the NaN comparison —
it is not omitted. -/
theorem short_series_macd_undefined (closes : List ℚ)
    (h : closes.length < 26) :
    (∀ row ∈ computeIndicators closes,
        row.macd = none ∧ row.macdSignal = none) ∧
      macdAdviceOf (latestRow closes) = [] ∧
        macdStatusOf (latestRow closes) = MacdStatus.bearish := by
  have hrows : ∀ row ∈ computeIndicators closes,
      row.macd = none ∧ row.macdSignal = none := by
    intro row hrow
    unfold computeIndicators at hrow
    rw [List.mem_map] at hrow
    obtain ⟨i, hi, rfl⟩ := hrow
    rw [List.mem_range] at hi
    constructor
    · unfold macdAt; rw [if_neg (by omega)]
    · unfold macdSignalAt; rw [if_neg (by omega)]
  have hm : (latestRow closes).macd = PVal.nan := by
    show toPVal
      (((computeIndicators closes).getD (closes.length - 1) emptyIndRow).macd) =
        PVal.nan
    rw [frame_getD]
    by_cases h0 : closes.length - 1 < closes.length
    · rw [if_pos h0]
      show toPVal (macdAt closes (closes.length - 1)) = PVal.nan
      unfold macdAt
      rw [if_neg (by omega)]
      rfl
    · rw [if_neg h0]
      rfl
  exact ⟨hrows, (macd_nan_no_advice (latestRow closes) hm).1,
    (macd_nan_no_advice (latestRow closes) hm).2⟩

/-- C2 witness: the concrete 10-bar series. -/
theorem short_series_macd_undefined_witness :
    macdAdviceOf (latestRow closes10) = [] ∧
      macdStatusOf (latestRow closes10) = MacdStatus.bearish := by
  have h := short_series_macd_undefined closes10 (by decide)
  exact ⟨h.2.1, h.2.2⟩

unseal Rat.add Rat.mul Rat.sub Rat.inv in
/-- C2 counterexample: on the 10-bar series the classifier still produces a
MACD status — Bearish, from the else-branch — rather than omitting it as
the claim states. -/
theorem short_series_macd_status_counterexample :
    macdStatusOf (latestRow closes10) = MacdStatus.bearish := by
  decide

set_option maxRecDepth 100000 in
unseal Rat.add Rat.mul Rat.sub Rat.inv in
/-- C5 (amended): the flat 30-bar series at close 50000 gives RSI exactly
100 by the zero-avgLoss branch, so the take-profits line is the whole
advice list (no fallback); the Bollinger percent is NaN, no Bollinger
advice fires, and the Bollinger status is computed as Normal rather than
the rule being skipped. -/
theorem flat30_scenario :
    (latestRow flat30).rsi = PVal.num 100 ∧
      bollPercentOf (latestRow flat30) = PVal.nan ∧
        adviceOf (latestRow flat30) = [rsiOverboughtLine] ∧
          bollAdviceOf (latestRow flat30) = [] ∧
            bollStatusOf (latestRow flat30) = BollStatus.normal := by
  decide

set_option maxRecDepth 100000 in
unseal Rat.add Rat.mul Rat.sub Rat.inv in
/-- C5 counterexample: on the flat series the Bollinger rule is not
skipped — the classifier computes a Normal status from the NaN percent. -/
theorem flat30_bollinger_status_counterexample :
    bollStatusOf (latestRow flat30) = BollStatus.normal := by
  decide

/-- C7: the frame is index-aligned with the close series — same length —
and every entry before its lookback window is the explicit `none`
(SMA20 and bands before bar 19, RSI before bar 14, MACD before bar 25, its
signal before bar 33), never a silent zero. -/
theorem frame_aligned (closes : List ℚ) (i : ℕ) (hi : i < closes.length) :
    (computeIndicators closes).length = closes.length ∧
      (i < 19 → ((computeIndicators closes).getD i emptyIndRow).sma20 = none) ∧
        (i < 14 → ((computeIndicators closes).getD i emptyIndRow).rsi14 = none) ∧
          (i < 25 → ((computeIndicators closes).getD i emptyIndRow).macd = none) ∧
            (i < 33 →
              ((computeIndicators closes).getD i emptyIndRow).macdSignal = none) ∧
              (i < 19 →
                ((computeIndicators closes).getD i emptyIndRow).bbLower = none ∧
                  ((computeIndicators closes).getD i emptyIndRow).bbUpper = none) := by
  rw [frame_getD, if_pos hi]
  refine ⟨frame_length closes, ?_, ?_, ?_, ?_, ?_⟩
  · intro hlt
    show sma20At closes i = none
    unfold sma20At; rw [if_neg (by omega)]
  · intro hlt
    show rsiAt closes i = none
    unfold rsiAt; rw [if_neg (by omega)]
  · intro hlt
    show macdAt closes i = none
    unfold macdAt; rw [if_neg (by omega)]
  · intro hlt
    show macdSignalAt closes i = none
    unfold macdSignalAt; rw [if_neg (by omega)]
  · intro hlt
    constructor
    · show (bbAt closes i).map Prod.fst = none
      unfold bbAt; rw [if_neg (by omega)]; rfl
    · show (bbAt closes i).map Prod.snd = none
      unfold bbAt; rw [if_neg (by omega)]; rfl

/-- C7 witness: the 10-bar series at row 5. -/
theorem frame_aligned_witness :
    (computeIndicators closes10).length = closes10.length ∧
      ((computeIndicators closes10).getD 5 emptyIndRow).sma20 = none ∧
        ((computeIndicators closes10).getD 5 emptyIndRow).rsi14 = none := by
  have h := frame_aligned closes10 5 (by decide)
  exact ⟨h.1, h.2.1 (by decide), h.2.2.1 (by decide)⟩
